import Mathlib

/-!
Verification development for the LoLab-MSM/egfr calibration codebase.

The Python sources under `egfr/` and `varsens/` are shallowly embedded here.
Numpy float arrays are modelled as lists (1-D) or as functions
`Fin rows → Fin cols → ℚ` (2-D); numpy elementwise arithmetic becomes
pointwise rational arithmetic and `numpy.sum` becomes a finite sum.  Rational
division is total in Lean with `x / 0 = 0`; every place where the source can
divide by zero is noted at the definition that models it.  `numpy.log10` is
kept abstract (a parameter `lg : ℚ → ℚ`), since only the structure of the
prior, never a concrete logarithm value, is at stake in the claims.
-/

namespace EGFR

/-- A pysb model parameter: a name and its declared numeric value
(`Parameter` objects reached through `model.parameters` / `parameters_rules()`
in the scripts). -/
structure Param where
  name : String
  value : ℚ
deriving DecidableEq, Repr, Inhabited

/-! ## Prior (calibration_A431.py lines 43-45 and 108-111)

`prior(mcmc, position)` returns `numpy.sum((position - prior_mean) ** 2 / (2 * prior_var))`
where `prior_mean = [numpy.log10(p.value) for p in opts.estimate_params]` and
`prior_var = 6.0`. -/

/-- Elementwise subtraction of two equal-length vectors, as numpy
`position - prior_mean`. -/
def vecSub (a b : List ℚ) : List ℚ :=
  List.zipWith (fun x y => x - y) a b

/-- Function `prior(mcmc, position)`: `numpy.sum((position - prior_mean) ** 2 / (2 * prior_var))`
from calibration_A431.py line 45, with the loaded `prior_mean` vector and the
scalar `prior_var` as explicit arguments. -/
def prior (position prior_mean : List ℚ) (prior_var : ℚ) : ℚ :=
  ((vecSub position prior_mean).map (fun d => d ^ 2 / (2 * prior_var))).sum

/-- Vector `prior_mean = [numpy.log10(p.value) for p in opts.estimate_params]`
(calibration_A431.py line 109); `lg` stands for `numpy.log10`. -/
def prior_mean (lg : ℚ → ℚ) (estimate_params : List Param) : List ℚ :=
  estimate_params.map (fun p => lg p.value)

/-- Scalar `prior_var = 6.0` (calibration_A431.py line 111). -/
def prior_var : ℚ := 6

/-- Unfolding lemma: the vectorised numpy expression summed over a list equals
the index-wise finite sum, for equal-length vectors. -/
theorem prior_eq_sum_range (a b : List ℚ) (v : ℚ) (h : a.length = b.length) :
    prior a b v = ∑ i ∈ Finset.range a.length, (a.getD i 0 - b.getD i 0) ^ 2 / (2 * v) := by
  induction a generalizing b with
  | nil => simp [prior, vecSub]
  | cons x xs ih =>
    cases b with
    | nil => simp at h
    | cons y ys =>
      have hlen : xs.length = ys.length := by simpa using h
      simp only [prior, vecSub, List.zipWith_cons_cons, List.map_cons, List.sum_cons,
        List.length_cons]
      rw [Finset.sum_range_succ', add_comm]
      simp only [List.getD_cons_succ, List.getD_cons_zero]
      congr 1
      exact ih ys hlen

/-! ## Trajectory matrices and normalize (calibration_A431.py lines 12-16)

A trajectory array has one row per time point and one column per observable.
`normalize` is `(trajectories - trajectories.min(0)) / (trajectories.max(0) - trajectories.min(0))`.
numpy `min(0)` / `max(0)` need at least one row, so matrices carry `T + 1` rows. -/

/-- Column minimum, numpy `trajectories.min(0)` applied to column `j`. -/
def colMin {T O : ℕ} (M : Fin (T + 1) → Fin O → ℚ) (j : Fin O) : ℚ :=
  Finset.univ.inf' Finset.univ_nonempty (fun t => M t j)

/-- Column maximum, numpy `trajectories.max(0)` applied to column `j`. -/
def colMax {T O : ℕ} (M : Fin (T + 1) → Fin O → ℚ) (j : Fin O) : ℚ :=
  Finset.univ.sup' Finset.univ_nonempty (fun t => M t j)

/-- Function `normalize(trajectories)` (calibration_A431.py lines 12-16):
`(trajectories - ymin) / (ymax - ymin)` with `ymin = trajectories.min(0)`,
`ymax = trajectories.max(0)`, broadcast over rows.  When a column is constant
the source divides by zero (numpy emits NaN); here rational division makes the
entry `0 / 0 = 0`, and in either semantics such an entry is not `1`. -/
def normalize {T O : ℕ} (M : Fin (T + 1) → Fin O → ℚ) : Fin (T + 1) → Fin O → ℚ :=
  fun t j => (M t j - colMin M j) / (colMax M j - colMin M j)

/-- numpy `numpy.sum` over a whole 2-D array. -/
def npSum {T O : ℕ} (M : Fin T → Fin O → ℚ) : ℚ :=
  ∑ t, ∑ j, M t j

/-! ## Likelihood (calibration_A431.py lines 22-41)

`likelihood(mcmc, position)` simulates the high-EGF condition with the default
initial state, then reruns the solver with `mcmc.cur_params(position)` and each
of `y0_lEGF`, `y0_hHRG`, `y0_lHRG`, min-max normalizes each simulated array, and
returns the sum of the four per-condition weighted sums of squares, each with
its own variance array. -/

/-- One condition's contribution:
`numpy.sum((ydata_norm - ysim_norm) ** 2 / (2 * exp_var ** 2))`. -/
def condSSE {T O : ℕ} (ydata ysim exp_var : Fin T → Fin O → ℚ) : ℚ :=
  npSum (fun t j => (ydata t j - ysim t j) ^ 2 / (2 * (exp_var t j) ^ 2))

/-- Function `likelihood(mcmc, position)` from calibration_A431.py lines 22-41.
`solverRun p y0` stands for the external ODE solver run
(`mcmc.solver.run(p, y0)` followed by `extract_records`), `curparams` for
`mcmc.cur_params(position)`, and `y0_default` for the model's built-in initial
state used by `mcmc.simulate(position, ...)`.  All four conditions are solved
with the same `curparams`; each is normalized and compared against its own
data and variance arrays. -/
def likelihood {T O : ℕ}
    (solverRun : List ℚ → List ℚ → Fin (T + 1) → Fin O → ℚ)
    (curparams y0_default y0_lEGF y0_hHRG y0_lHRG : List ℚ)
    (ydatahEGF_norm ydatalEGF_norm ydatahHRG_norm ydatalHRG_norm :
      Fin (T + 1) → Fin O → ℚ)
    (exp_var_hEGF exp_var_lEGF exp_var_hHRG exp_var_lHRG :
      Fin (T + 1) → Fin O → ℚ) : ℚ :=
  condSSE ydatahEGF_norm (normalize (solverRun curparams y0_default)) exp_var_hEGF
    + condSSE ydatalEGF_norm (normalize (solverRun curparams y0_lEGF)) exp_var_lEGF
    + condSSE ydatahHRG_norm (normalize (solverRun curparams y0_hHRG)) exp_var_hHRG
    + condSSE ydatalHRG_norm (normalize (solverRun curparams y0_lHRG)) exp_var_lHRG

/-- The single-condition likelihood of
ems_egfr_plus_mtor/calibration_files/calibration_A431_highEGF_unnorm_splined.py
lines 23-29: `numpy.sum((ydata_exp - ysim_array) ** 2 / (2 * exp_var ** 2))`,
no normalization. -/
def likelihood_unnorm_splined {T O : ℕ}
    (ydata_exp ysim_array exp_var : Fin T → Fin O → ℚ) : ℚ :=
  npSum (fun t j => (ydata_exp t j - ysim_array t j) ^ 2 / (2 * (exp_var t j) ^ 2))

/-! ## Estimation-scenario configuration (calibration_A431.py lines 91-106)

The scenario block sets `opts.estimate_params` (and, for scenario 2, hessian
options) or raises `RuntimeError("unknown scenario number")`.  The failure is
modelled with `Except`: `Except.error` is the uncaught exception aborting the
script before any later statement runs. -/

/-- The MCMC options the scenario block fills in (the fields of
`bayessb.MCMCOpts` the block touches, plus `nsteps` which it reads). -/
structure ScenarioOpts where
  nsteps : ℕ
  estimate_params : List Param
  use_hessian : Bool
  hessian_period : ℕ
deriving DecidableEq, Repr

/-- The constructed `bayessb.MCMC(opts)` object, as far as the embedding needs
it: the record of the options it was built from. -/
structure MCMCObject where
  opts : ScenarioOpts
deriving DecidableEq, Repr

/-- The `if scenario == 1 / elif scenario == 2 / else raise` block of
calibration_A431.py lines 94-106 (identically in
calibration_files/calibration_H1666_findingnans.py lines 122-135).
`parameters_rules` is the list returned by `model.parameters_rules()`;
`opts` holds the option values already set above the block. -/
def configure_scenario (scenario : ℤ) (parameters_rules : List Param)
    (opts : ScenarioOpts) : Except String ScenarioOpts :=
  if scenario = 1 then
    Except.ok { opts with estimate_params := parameters_rules }
  else if scenario = 2 then
    Except.ok { opts with
      estimate_params := parameters_rules
      use_hessian := true
      hessian_period := opts.nsteps / 6 }
  else
    Except.error "unknown scenario number"

/-- The script from the scenario block through `mcmc = bayessb.MCMC(opts)` and
`mcmc.run()`: configuration happens first, so an error there aborts before
the MCMC object exists and before `run` (any chain iteration or simulation)
is reached.  `run` stands for the external `bayessb` chain driver. -/
def calibration_startup {A : Type} (run : MCMCObject → A) (scenario : ℤ)
    (parameters_rules : List Param) (opts : ScenarioOpts) : Except String A := do
  let opts2 ← configure_scenario scenario parameters_rules opts
  let mcmc : MCMCObject := { opts := opts2 }
  pure (run mcmc)

/-! ## Fitted-parameter loading (varsens/compute_objective.py lines 12-19,
varsens/setup_sample.py lines 22-29,
egfr/calibration_files/calibration_H1666_findingnans.py lines 14-19)

After unpickling `fittedparams`, each script runs
```
for i in range(len(model.parameters)):
    if model.parameters[i].name in fittedparams:
        model.parameters[i].value = fittedparams[model.parameters[i].name]
```
The dictionary is modelled as an association list with distinct keys. -/

/-- The fitted-parameter loop: every model parameter whose name is a key of
`fittedparams` gets that value; all other parameters keep their declared
value.  Keys of `fittedparams` that name no model parameter are never
consulted: the loop ranges over `model.parameters` only. -/
def apply_fittedparams (parameters : List Param)
    (fittedparams : List (String × ℚ)) : List Param :=
  parameters.map (fun p =>
    match fittedparams.lookup p.name with
    | some v => { p with value := v }
    | none => p)

/-- The startup section of varsens/compute_objective.py around the loop:
neither the `in` test nor the guarded subscript can raise, so startup always
succeeds with the updated parameter list. -/
def fittedparams_startup (parameters : List Param)
    (fittedparams : List (String × ℚ)) : Except String (List Param) :=
  Except.ok (apply_fittedparams parameters fittedparams)

/-! ## Initial-value loading (calibration_A431.py lines 72-79)

The source reads, statement for statement:
```
data_filename = os.path.join(os.path.dirname(__file__), 'y0_lEGF.npy')
y0_lEGF = numpy.load(data_filename)
data_filename = os.path.join(os.path.dirname(__file__), 'y0_hHRG.npy')
y0_hHRG = numpy.load(data_filename)
os.path.join(os.path.dirname(__file__), 'y0_lHRG.npy')
y0_lHRG = numpy.load(data_filename)
```
The fifth line is a bare expression statement: its value is never assigned to
`data_filename`.  The embedding keeps each statement as a `Y0Stmt` and runs
them over a state holding the current `data_filename` and, for each `y0_*`
variable, the file it was loaded from. -/

/-- One statement of the initial-value loading block. -/
inductive Y0Stmt where
  /-- Statement `data_filename = os.path.join(os.path.dirname(__file__), fname)` -/
  | assign_data_filename (fname : String)
  /-- a bare `os.path.join(os.path.dirname(__file__), fname)` expression
  statement whose value is discarded -/
  | bare_join (fname : String)
  /-- Statement `var = numpy.load(data_filename)` -/
  | load (var : String)
deriving DecidableEq, Repr

/-- Interpreter state: the current value of `data_filename` and the file each
`y0_*` variable has been loaded from so far. -/
structure Y0State where
  data_filename : String
  loads : List (String × String)
deriving DecidableEq, Repr

/-- Execute one statement.  A bare expression statement changes nothing. -/
def y0Step (s : Y0State) : Y0Stmt → Y0State
  | Y0Stmt.assign_data_filename fname => { s with data_filename := fname }
  | Y0Stmt.bare_join _ => s
  | Y0Stmt.load var => { s with loads := s.loads ++ [(var, s.data_filename)] }

/-- Execute a statement list from a starting state. -/
def y0Run (stmts : List Y0Stmt) (s : Y0State) : Y0State :=
  stmts.foldl y0Step s

/-- The statement sequence of calibration_A431.py lines 73-79, verbatim.
`data_filename` enters the block holding the last variance-file path loaded on
line 70. -/
def y0LoadBlock : List Y0Stmt :=
  [Y0Stmt.assign_data_filename "y0_lEGF.npy",
   Y0Stmt.load "y0_lEGF",
   Y0Stmt.assign_data_filename "y0_hHRG.npy",
   Y0Stmt.load "y0_hHRG",
   Y0Stmt.bare_join "y0_lHRG.npy",
   Y0Stmt.load "y0_lHRG"]

/-- The file a variable was loaded from after the block runs. -/
def y0LoadedFrom (var : String) : Option String :=
  (y0Run y0LoadBlock
    { data_filename := "experimental_data_var_A431_lowHRG.npy", loads := [] }).loads.lookup var

/-! ## Model construction (egfr/erbb_exec.py lines 11-32 against
egfr/chen_modules.py)

erbb_exec.py calls, in order, a fixed list of `chen_modules.<name>()`
functions and then declares the observables.  A call to a name that
chen_modules.py does not define raises `AttributeError` at that point and
aborts the import. -/

/-- The module-level functions chen_modules.py actually defines (its complete
`def` list). -/
def chen_modules_defs : List String :=
  ["rec_monomers", "rec_initial_lig_hEGF", "rec_initial_lig_lEGF",
   "rec_initial_lig_hHRG", "rec_initial_lig_lHRG", "rec_initial", "rec_events",
   "mapk_monomers", "mapk_initial", "mapk_events",
   "akt_monomers", "akt_initial", "akt_events",
   "crosstalk_monomers", "crosstalk_initial", "crosstalk_events"]

/-- The `chen_modules.<name>()` calls of erbb_exec.py lines 14-32, in source
order. -/
def erbb_exec_calls : List String :=
  ["rec_monomers", "rec_monomers_lig_EGF", "mapk_monomers", "akt_monomers",
   "crosstalk_monomers",
   "rec_events", "rec_events_lig_EGF", "mapk_events", "akt_events",
   "crosstalk_events",
   "rec_initial", "rec_initial_lig_hEGF", "mapk_initial", "akt_initial",
   "crosstalk_initial"]

/-- The observables erbb_exec.py declares after the module calls
(lines 35-37). -/
def erbb_exec_observables : List String :=
  ["obsAKTPP", "obsErbB1_P_CE", "obsERKPP"]

/-- Looking up and calling one `chen_modules.<name>()`: `AttributeError` when
chen_modules.py defines no such function. -/
def call_chen_module (name : String) : Except String Unit :=
  if name ∈ chen_modules_defs then Except.ok () else Except.error name

/-- Executing erbb_exec.py top to bottom: run every module call in order, then
declare the observables.  The result is the declared observable list; an
`Except.error name` is the `AttributeError` on `name` aborting the import
before the observables exist. -/
def build_erbb_model : Except String (List String) := do
  erbb_exec_calls.forM call_chen_module
  pure erbb_exec_observables

/-! ## H1666 likelihood branches
(egfr/calibration_files/calibration_H1666_findingnans.py lines 31-77)

The `likelihood` there slices 10 experimental time points out of the
trajectories (10 rows, 3 observable columns) and then, in a `try` block,
computes one weighted sum of squares per column and returns their sum; the
`except AttributeError` fallback returns the single aggregate `numpy.sum` over
the whole arrays. -/

/-- The common weighted-squared-residual entry
`(yslice_exp_he - ysim_slice_he) ** 2 / (2 * yslice_exp_var_he ** 2)` at row
`t`, column `j`. -/
def wsqEntry (yslice_exp ysim_slice yslice_exp_var : Fin 10 → Fin 3 → ℚ)
    (t : Fin 10) (j : Fin 3) : ℚ :=
  (yslice_exp t j - ysim_slice t j) ^ 2 / (2 * (yslice_exp_var t j) ^ 2)

/-- The `try` branch: `objAKT + objErb + objERK`, the three column-wise
`numpy.sum`s over columns 0, 1, 2 (lines 40-42 and 77). -/
def likelihood_H1666_perobs (yslice_exp ysim_slice yslice_exp_var :
    Fin 10 → Fin 3 → ℚ) : ℚ :=
  (∑ t, wsqEntry yslice_exp ysim_slice yslice_exp_var t 0)
    + (∑ t, wsqEntry yslice_exp ysim_slice yslice_exp_var t 1)
    + (∑ t, wsqEntry yslice_exp ysim_slice yslice_exp_var t 2)

/-- The `except AttributeError` branch:
`numpy.sum((yslice_exp_he - ysim_slice_he) ** 2 / (2 * yslice_exp_var_he ** 2))`
over the whole 10 x 3 arrays (line 79). -/
def likelihood_H1666_agg (yslice_exp ysim_slice yslice_exp_var :
    Fin 10 → Fin 3 → ℚ) : ℚ :=
  npSum (wsqEntry yslice_exp ysim_slice yslice_exp_var)

/-! ## varsens objective (varsens/compute_objective.py lines 26-34,
varsens/setup_sample.py lines 46-54)

For each observable the driver returns
`(np.sum((reference[obs] - x[obs]) / 14401.0)) ** 2` over the 14401-point time
grid `np.linspace(0, 7200, 14401)`. -/

/-- One observable's score: the square of `np.sum` of the residuals divided by
`14401.0`, i.e. the squared mean signed residual. -/
def objectiveComponent (reference x : Fin 14401 → ℚ) : ℚ :=
  (∑ t, (reference t - x t) / 14401) ^ 2

/-- Function `objective(x)`: the three-element list returned for the three observables
`obsAKTPP`, `obsErbB1_ErbB_P_CE`, `obsERKPP`. -/
def objective (refAKT refErb refERK xAKT xErb xERK : Fin 14401 → ℚ) : List ℚ :=
  [objectiveComponent refAKT xAKT,
   objectiveComponent refErb xErb,
   objectiveComponent refERK xERK]

/-! ## Theorems for the claims -/

/-- Position `i` of a mapped list, for `i` in range. -/
theorem getD_map_value (lg : ℚ → ℚ) (params : List Param) (i : ℕ)
    (hi : i < params.length) :
    (prior_mean lg params).getD i 0 = lg ((params.getD i default).value) := by
  unfold prior_mean
  rw [List.getD_eq_getElem?_getD, List.getElem?_map,
    List.getElem?_eq_getElem hi, List.getD_eq_getElem?_getD,
    List.getElem?_eq_getElem hi]
  rfl

/-- C2: the prior returned by `prior` at a log-space position equals the sum
over all estimated parameters `i` of
`(position[i] - log10(reference_value[i])) ^ 2 / (2 * prior_var)`, where the
reference values are the declared values of the parameters selected for
estimation and `prior_var` is the script's scalar (6.0); `lg` is
`numpy.log10`. -/
theorem C2_prior_logspace_gaussian (lg : ℚ → ℚ) (position : List ℚ)
    (estimate_params : List Param)
    (h : position.length = estimate_params.length) :
    prior position (prior_mean lg estimate_params) prior_var
      = ∑ i ∈ Finset.range estimate_params.length,
          (position.getD i 0 - lg ((estimate_params.getD i default).value)) ^ 2
            / (2 * prior_var) := by
  have hlen : position.length = (prior_mean lg estimate_params).length := by
    simpa [prior_mean] using h
  rw [prior_eq_sum_range position _ prior_var hlen, h]
  refine Finset.sum_congr rfl fun i hi => ?_
  rw [getD_map_value lg estimate_params i (Finset.mem_range.mp hi)]

/-- C2 witness: the theorem instantiated at a one-parameter model. -/
theorem C2_prior_logspace_gaussian_witness :
    prior [(0 : ℚ)] (prior_mean id [Param.mk "kf" 10]) prior_var
      = ∑ i ∈ Finset.range (List.length [Param.mk "kf" 10]),
          (List.getD [(0 : ℚ)] i 0
              - id ((List.getD [Param.mk "kf" 10] i default).value)) ^ 2
            / (2 * prior_var) :=
  C2_prior_logspace_gaussian id [(0 : ℚ)] [Param.mk "kf" 10] (by decide)

/-- C9: in the H1666 likelihood, the per-observable branch (the sum
`objAKT + objErb + objERK` of the three column-wise weighted sums of squares)
returns the same number as the `AttributeError` fallback branch (one aggregate
`numpy.sum` over the whole 10 x 3 arrays). -/
theorem C9_H1666_branches_agree (yslice_exp ysim_slice yslice_exp_var :
    Fin 10 → Fin 3 → ℚ) :
    likelihood_H1666_perobs yslice_exp ysim_slice yslice_exp_var
      = likelihood_H1666_agg yslice_exp ysim_slice yslice_exp_var := by
  simp [likelihood_H1666_perobs, likelihood_H1666_agg, npSum,
    Fin.sum_univ_three, Finset.sum_add_distrib]

/-- C4: for every scenario selector other than 1 and 2, the calibration
script's configuration step raises `RuntimeError("unknown scenario number")`
and the whole startup errors out before the MCMC object is constructed and
before the external chain driver `run` is invoked. -/
theorem C4_unknown_scenario_fatal {A : Type} (run : MCMCObject → A)
    (scenario : ℤ) (parameters_rules : List Param) (opts : ScenarioOpts)
    (h1 : scenario ≠ 1) (h2 : scenario ≠ 2) :
    calibration_startup run scenario parameters_rules opts
      = Except.error "unknown scenario number" := by
  simp [calibration_startup, configure_scenario, h1, h2]

/-- C4 witness: scenario 3 with concrete options never reaches the chain
driver. -/
theorem C4_unknown_scenario_fatal_witness :
    calibration_startup (fun m => m.opts.nsteps) 3 []
        { nsteps := 50000, estimate_params := [], use_hessian := false,
          hessian_period := 0 }
      = Except.error "unknown scenario number" :=
  C4_unknown_scenario_fatal (fun m => m.opts.nsteps) 3 [] _
    (by decide) (by decide)

/-- C8: erbb_exec.py calls `chen_modules.rec_monomers_lig_EGF()` and
`chen_modules.rec_events_lig_EGF()`, chen_modules.py defines neither, so model
construction aborts with an attribute-lookup error on the first such call,
before any observable is declared, and every script importing the model
(importing runs erbb_exec.py to completion before any continuation) aborts
with the same error. -/
theorem C8_model_construction_aborts :
    build_erbb_model = Except.error "rec_monomers_lig_EGF"
    ∧ "rec_monomers_lig_EGF" ∈ erbb_exec_calls
    ∧ "rec_events_lig_EGF" ∈ erbb_exec_calls
    ∧ "rec_monomers_lig_EGF" ∉ chen_modules_defs
    ∧ "rec_events_lig_EGF" ∉ chen_modules_defs
    ∧ ∀ k : List String → Except String Unit,
        build_erbb_model >>= k = Except.error "rec_monomers_lig_EGF" := by
  refine ⟨rfl, by decide, by decide, by decide, by decide, fun k => ?_⟩
  rfl

/-- C5 counterexample: a loaded fitted-parameter dictionary with the key
`"bogus"`, which names no parameter of the two-parameter model, does not make
startup fail — the loop completes successfully, applying only the matching
key `"kf"` and ignoring the extraneous entry. -/
theorem C5_counterexample_unknown_key_not_fatal :
    fittedparams_startup [Param.mk "kf" 1, Param.mk "kr" 2]
        [("kf", 5), ("bogus", 9)]
      = Except.ok [Param.mk "kf" 5, Param.mk "kr" 2] := by
  rfl

/-- C5 amended: a fitted-parameter key that names no parameter of the live
model is silently ignored at startup: the loop succeeds and produces exactly
the parameter list it would produce without that entry (only matching keys
update values; no configuration error is raised). -/
theorem C5_unknown_keys_silently_ignored (parameters : List Param)
    (fittedparams : List (String × ℚ)) (key : String) (v : ℚ)
    (h : ∀ p ∈ parameters, p.name ≠ key) :
    fittedparams_startup parameters ((key, v) :: fittedparams)
      = Except.ok (apply_fittedparams parameters fittedparams) := by
  simp only [fittedparams_startup, apply_fittedparams, Except.ok.injEq]
  refine List.map_congr_left fun p hp => ?_
  have hne : (p.name == key) = false := beq_eq_false_iff_ne.mpr (h p hp)
  simp [List.lookup, hne]

/-- C5 amended witness: at a concrete one-parameter model and a dictionary
holding only the unknown key. -/
theorem C5_unknown_keys_silently_ignored_witness :
    fittedparams_startup [Param.mk "kf" 1] [("bogus", 9)]
      = Except.ok (apply_fittedparams [Param.mk "kf" 1] []) :=
  C5_unknown_keys_silently_ignored [Param.mk "kf" 1] [] "bogus" 9 (by decide)

/-- C3: running the initial-value loading block of calibration_A431.py
verbatim, `y0_lEGF` and `y0_hHRG` are loaded from their own files, but
`y0_lHRG` is loaded from `y0_hHRG.npy`, not from `y0_lHRG.npy`: the
`os.path.join(..., 'y0_lHRG.npy')` on line 78 is a bare expression statement
whose result is never assigned to `data_filename`. -/
theorem C3_y0_lHRG_loaded_from_wrong_file :
    y0LoadedFrom "y0_lEGF" = some "y0_lEGF.npy"
    ∧ y0LoadedFrom "y0_hHRG" = some "y0_hHRG.npy"
    ∧ y0LoadedFrom "y0_lHRG" = some "y0_hHRG.npy"
    ∧ y0LoadedFrom "y0_lHRG" ≠ some "y0_lHRG.npy" := by
  decide

/-- C1: the four-condition likelihood equals the sum over the conditions
(high EGF, low EGF, high HRG, low HRG) of the sum over time points and
observables of `(data - sim) ^ 2 / (2 * variance ^ 2)`, where each condition
is simulated from its own initial state with the one shared parameter vector
`curparams`, compared (after min-max normalization, see `likelihood`) against
that condition's data and variance arrays; and the single-condition splined
calibration's likelihood is the same weighted sum of squares over its one
condition. -/
theorem C1_likelihood_weighted_ssq {T O : ℕ}
    (solverRun : List ℚ → List ℚ → Fin (T + 1) → Fin O → ℚ)
    (curparams y0_default y0_lEGF y0_hHRG y0_lHRG : List ℚ)
    (d1 d2 d3 d4 v1 v2 v3 v4 : Fin (T + 1) → Fin O → ℚ)
    (ydata_exp ysim_array exp_var : Fin (T + 1) → Fin O → ℚ) :
    likelihood solverRun curparams y0_default y0_lEGF y0_hHRG y0_lHRG
        d1 d2 d3 d4 v1 v2 v3 v4
      = (∑ c : Fin 4, ∑ t, ∑ j,
          (![d1, d2, d3, d4] c t j
              - normalize
                  (solverRun curparams
                    (![y0_default, y0_lEGF, y0_hHRG, y0_lHRG] c)) t j) ^ 2
            / (2 * (![v1, v2, v3, v4] c t j) ^ 2))
    ∧ likelihood_unnorm_splined ydata_exp ysim_array exp_var
      = ∑ t, ∑ j,
          (ydata_exp t j - ysim_array t j) ^ 2 / (2 * (exp_var t j) ^ 2) := by
  constructor
  · simp only [Fin.sum_univ_four, Matrix.cons_val_zero, Matrix.cons_val_one,
      Matrix.head_cons, Matrix.cons_val_two, Matrix.tail_cons,
      Matrix.cons_val_three, Matrix.head_fin_const]
    rfl
  · rfl

/-- A matrix whose single column rises from 0 to 1, used to instantiate the
C6 theorem. -/
def rampMat : Fin 2 → Fin 1 → ℚ :=
  fun t _ => if t = 0 then 0 else 1

/-- A matrix whose single column is constant, on which `normalize` divides by
zero. -/
def constColMat : Fin 2 → Fin 1 → ℚ :=
  fun _ _ => 1

/-- C6 counterexample: on a matrix with a constant column, the entry equal to
its column's maximum is normalized to 0, not 1 (the source divides by
`max - min = 0`; numpy produces NaN there, and in the total rational
semantics the quotient is 0 — in neither semantics is it 1), refuting the
claim for arbitrary trajectory matrices. -/
theorem C6_counterexample_constant_column :
    constColMat 0 0 = colMax constColMat 0
    ∧ normalize constColMat 0 0 = 0
    ∧ ¬ normalize constColMat 0 0 = 1 := by
  have hmax : colMax constColMat 0 = 1 := Finset.sup'_const _ 1
  have hmin : colMin constColMat 0 = 1 := Finset.inf'_const _ 1
  refine ⟨hmax.symm, ?_, ?_⟩ <;> simp [normalize, hmin, hmax, constColMat]

/-- C6 amended: for every trajectory matrix in which each column is
non-constant (its minimum is strictly below its maximum), `normalize` maps
every entry into `[0, 1]`, sends entries equal to the column minimum to 0 and
entries equal to the column maximum to 1; and the four-condition likelihood
applies `normalize` to each simulated trajectory before comparing it with the
(already normalized) experimental data. -/
theorem C6_normalize_unit_interval {T O : ℕ} (M : Fin (T + 1) → Fin O → ℚ)
    (h : ∀ j, colMin M j < colMax M j) :
    (∀ t j, 0 ≤ normalize M t j ∧ normalize M t j ≤ 1)
    ∧ (∀ t j, M t j = colMin M j → normalize M t j = 0)
    ∧ (∀ t j, M t j = colMax M j → normalize M t j = 1)
    ∧ ∀ (solverRun : List ℚ → List ℚ → Fin (T + 1) → Fin O → ℚ)
        (curparams y0d y0le y0hh y0lh : List ℚ)
        (d1 d2 d3 d4 v1 v2 v3 v4 : Fin (T + 1) → Fin O → ℚ),
        likelihood solverRun curparams y0d y0le y0hh y0lh
            d1 d2 d3 d4 v1 v2 v3 v4
          = condSSE d1 (normalize (solverRun curparams y0d)) v1
            + condSSE d2 (normalize (solverRun curparams y0le)) v2
            + condSSE d3 (normalize (solverRun curparams y0hh)) v3
            + condSSE d4 (normalize (solverRun curparams y0lh)) v4 := by
  refine ⟨fun t j => ?_, fun t j hm => ?_, fun t j hm => ?_,
    fun _ _ _ _ _ _ _ _ _ _ _ _ _ _ => rfl⟩
  · have hmn : colMin M j ≤ M t j := Finset.inf'_le _ (Finset.mem_univ t)
    have hmx : M t j ≤ colMax M j :=
      Finset.le_sup' (fun t => M t j) (Finset.mem_univ t)
    have hpos : 0 < colMax M j - colMin M j := sub_pos.mpr (h j)
    refine ⟨div_nonneg (sub_nonneg.mpr hmn) hpos.le, ?_⟩
    rw [normalize, div_le_one hpos]
    exact sub_le_sub_right hmx _
  · simp [normalize, hm]
  · have hpos : 0 < colMax M j - colMin M j := sub_pos.mpr (h j)
    rw [normalize, hm, div_self hpos.ne']

/-- C6 amended witness: the theorem instantiated at the concrete ramp
matrix. -/
theorem C6_normalize_unit_interval_witness :
    (∀ j, colMin rampMat j < colMax rampMat j)
    ∧ (0 ≤ normalize rampMat 0 0 ∧ normalize rampMat 0 0 ≤ 1) := by
  have h : ∀ j, colMin rampMat j < colMax rampMat j := by decide
  exact ⟨h, (C6_normalize_unit_interval rampMat h).1 0 0⟩

/-- Setting index `i` leaves every other position of the list unchanged. -/
theorem getD_set_ne (l : List ℚ) (i j : ℕ) (x : ℚ) (h : i ≠ j) :
    (l.set i x).getD j 0 = l.getD j 0 := by
  rw [List.getD_eq_getElem?_getD, List.getD_eq_getElem?_getD,
    List.getElem?_set_ne h]

/-- Setting index `i` puts the new value at position `i`. -/
theorem getD_set_self (l : List ℚ) (i : ℕ) (x : ℚ) (h : i < l.length) :
    (l.set i x).getD i 0 = x := by
  rw [List.getD_eq_getElem?_getD, List.getElem?_set_eq_of_lt x h]
  rfl

/-- C7: with a positive `prior_var`, moving a single estimate-parameter
coordinate strictly farther from its prior mean (in absolute distance)
strictly increases the value of `prior`, all other coordinates held fixed. -/
theorem C7_prior_strictly_increases (position pm : List ℚ) (v : ℚ) (i : ℕ)
    (a b : ℚ) (hv : 0 < v) (hi : i < position.length)
    (hlen : position.length = pm.length)
    (hab : |a - pm.getD i 0| < |b - pm.getD i 0|) :
    prior (position.set i a) pm v < prior (position.set i b) pm v := by
  have hseta : (position.set i a).length = pm.length := by
    simpa using hlen
  have hsetb : (position.set i b).length = pm.length := by
    simpa using hlen
  rw [prior_eq_sum_range _ _ _ hseta, prior_eq_sum_range _ _ _ hsetb]
  simp only [List.length_set]
  have himem : i ∈ Finset.range position.length := Finset.mem_range.mpr hi
  rw [← Finset.add_sum_erase _ _ himem, ← Finset.add_sum_erase _ _ himem]
  have hrest : ∑ j ∈ (Finset.range position.length).erase i,
        ((position.set i a).getD j 0 - pm.getD j 0) ^ 2 / (2 * v)
      = ∑ j ∈ (Finset.range position.length).erase i,
        ((position.set i b).getD j 0 - pm.getD j 0) ^ 2 / (2 * v) := by
    refine Finset.sum_congr rfl fun j hj => ?_
    have hji : i ≠ j := fun hij => (Finset.mem_erase.mp hj).1 hij.symm
    rw [getD_set_ne position i j a hji, getD_set_ne position i j b hji]
  rw [hrest, getD_set_self position i a hi, getD_set_self position i b hi]
  have hsq : (a - pm.getD i 0) ^ 2 < (b - pm.getD i 0) ^ 2 := by
    rw [← sq_abs (a - pm.getD i 0), ← sq_abs (b - pm.getD i 0)]
    exact pow_lt_pow_left₀ hab (abs_nonneg _) (by norm_num)
  have h2v : (0 : ℚ) < 2 * v := by linarith
  exact add_lt_add_right ((div_lt_div_iff_of_pos_right h2v).mpr hsq) _

/-- C7 witness: the theorem at a one-coordinate position with prior mean 0,
`prior_var = 1`, moving the coordinate from 0 to 1. -/
theorem C7_prior_strictly_increases_witness :
    prior (List.set [(0 : ℚ)] 0 0) [0] 1 < prior (List.set [(0 : ℚ)] 0 1) [0] 1 :=
  C7_prior_strictly_increases [(0 : ℚ)] [0] 1 0 0 1 (by norm_num) (by decide)
    (by decide) (by norm_num)

/-- A perturbed trajectory that differs from the zero reference at every time
point of the 14401-point grid while its signed residuals sum to zero. -/
def cancelTraj : Fin 14401 → ℚ :=
  fun t => if t = 0 then 14400 else -1

/-- The signed residual total of `cancelTraj` against the zero reference is
zero. -/
theorem cancelTraj_sum : ∑ t, cancelTraj t = 0 := by
  have hsplit : ∀ t : Fin 14401,
      cancelTraj t = (if t = (0 : Fin 14401) then (14401 : ℚ) else 0) + (-1) := by
    intro t
    by_cases ht : t = 0
    · norm_num [cancelTraj, ht]
    · simp [cancelTraj, ht]
  rw [Finset.sum_congr rfl fun t _ => hsplit t, Finset.sum_add_distrib,
    Fintype.sum_ite_eq' (0 : Fin 14401) (fun _ => (14401 : ℚ)),
    Finset.sum_const, Finset.card_univ, Fintype.card_fin, nsmul_eq_mul]
  norm_num

/-- C10: there is a pair of a reference trajectory and a perturbed trajectory
differing at every single time point, for every one of the three observables,
on which the varsens objective returns `[0, 0, 0]`: each component is the
square of the mean signed residual, so positive and negative deviations
cancel. -/
theorem C10_objective_perfect_score_off_reference :
    ∃ refAKT refErb refERK xAKT xErb xERK : Fin 14401 → ℚ,
      (∀ t, refAKT t ≠ xAKT t) ∧ (∀ t, refErb t ≠ xErb t)
      ∧ (∀ t, refERK t ≠ xERK t)
      ∧ objective refAKT refErb refERK xAKT xErb xERK = [0, 0, 0] := by
  have hne : ∀ t : Fin 14401, (0 : ℚ) ≠ cancelTraj t := by
    intro t
    by_cases ht : t = 0
    · norm_num [cancelTraj, ht]
    · norm_num [cancelTraj, ht]
  have hcomp : objectiveComponent (fun _ => 0) cancelTraj = 0 := by
    unfold objectiveComponent
    have hzero : ∑ t : Fin 14401, ((fun _ => (0 : ℚ)) t - cancelTraj t) / 14401
        = 0 := by
      rw [← Finset.sum_div]
      simp only [zero_sub]
      rw [Finset.sum_neg_distrib, cancelTraj_sum]
      norm_num
    rw [hzero]
    norm_num
  exact ⟨fun _ => 0, fun _ => 0, fun _ => 0, cancelTraj, cancelTraj, cancelTraj,
    hne, hne, hne, by simp [objective, hcomp]⟩

end EGFR
